import Mathlib

/-!
Shallow embedding of the capability/polling core of the `python-kasa` fork:
`kasa/module.py` (feature registry), `kasa/smart/smartbulb.py` (capability-gated
bulb facade), `kasa/iot/modules/emeter.py` (statistics conversion) and
`kasa/iot/iotlightstrip.py` (built-in effect application).

Modelling conventions:
- Python exceptions become explicit error values (`PyError`); a function that
  can raise returns `Except PyError _` (or pairs an `Option PyError` with the
  post-state when the caller observes the state after the raise).
- Python dicts become insertion-ordered association lists; `dict.__setitem__`
  updates the value in place for an existing key and appends otherwise.
- Python numbers appearing in the emeter statistics (ints and floats) are
  modelled as exact rationals (`Rat`).
- An `async` method that performs exactly one `protocol.query(request)` call
  and returns its response is modelled as a function producing the request it
  would send: `.ok req` means exactly one request `req` is issued, `.error e`
  means the exception `e` is raised before any request is sent.
-/

/-- Python exceptions raised by the modelled code: `KasaException` (capability /
configuration errors) and `ValueError` (validation errors). -/
inductive PyError where
  | kasaError (msg : String)
  | valueError (msg : String)
deriving DecidableEq

/-- Charwise map over a string; the Python `str.lower()` and single-character
`str.replace` are charwise maps. -/
def strMap (f : Char → Char) (s : String) : String := String.mk (s.data.map f)

/-- The apostrophe character (U+0027). -/
def apostrophe : Char := Char.ofNat 39

/-- Model of `Module._add_feature._slugified_name` (module.py): Python
`name.lower().replace(space, underscore).replace(apostrophe, underscore)` —
lowercase, then replace
every space by an underscore, then replace every apostrophe by an underscore. -/
def _slugified_name (name : String) : String :=
  strMap (fun c => if c = apostrophe then '_' else c)
    (strMap (fun c => if c = ' ' then '_' else c)
      (strMap Char.toLower name))

/-- A feature; only its `name` participates in registry identity
(module.py keys the registry by the slugified name alone). -/
structure Feature where
  name : String
deriving DecidableEq

/-- Model of `Module._module_features`: a Python dict from slug to feature, modelled as
an insertion-ordered association list without duplicate keys. -/
abbrev FeatureRegistry := List (String × Feature)

/-- Python `feat_name in self._module_features` / dict lookup. -/
def regLookup (reg : FeatureRegistry) (k : String) : Option Feature :=
  (reg.find? (fun p => p.1 == k)).map (fun p => p.2)

/-- Model of `Module._add_feature` (module.py): slugify the feature name; raise
`KasaException("Duplicate name detected %s" % feat_name)` if the slug is
already a key, else insert the feature under the slug (a fresh dict key is
appended at the end). The returned pair is (raised exception, registry after
the call); a raise happens before any mutation, so the registry is returned
unchanged in that case. -/
def _add_feature (reg : FeatureRegistry) (feature : Feature) :
    Option PyError × FeatureRegistry :=
  let feat_name := _slugified_name feature.name
  if (regLookup reg feat_name).isSome then
    (some (.kasaError ("Duplicate name detected " ++ feat_name)), reg)
  else
    (none, reg ++ [(feat_name, feature)])

/-- The slice of the `_info` blob of a SmartBulb consulted by the modelled
operations. Each field is `none` when the corresponding key is absent from the
raw dict. `color_temp_range` is the two-element list `[min, max]`. -/
structure BulbInfo where
  hue : Option Int
  saturation : Option Int
  brightness : Option Int
  color_temp : Option Int
  color_temp_range : Option (Int × Int)
deriving DecidableEq

/-- A SmartBulb: its last-fetched info blob and the names of its registered
modules (smartbulb.py consults `self.modules` only for `"Brightness"`). -/
structure SmartBulb where
  info : BulbInfo
  modules : List String
deriving DecidableEq

/-- Model of `SmartBulb.is_color`: `"hue" in self._info`. -/
def is_color (b : SmartBulb) : Bool := b.info.hue.isSome

/-- Model of `SmartBulb.is_dimmable`: `"Brightness" in self.modules`. -/
def is_dimmable (b : SmartBulb) : Bool := b.modules.contains "Brightness"

/-- Model of `SmartBulb.is_variable_color_temp`:
`ct = self._info.get("color_temp_range"); ct is not None and ct[0] != ct[1]`. -/
def is_variable_color_temp (b : SmartBulb) : Bool :=
  match b.info.color_temp_range with
  | none => false
  | some ct => ct.1 != ct.2

/-- Model of `SmartBulb.valid_temperature_range`: raises
`KasaException("Color temperature not supported")` unless
`is_variable_color_temp`; otherwise returns
`self._info.get("color_temp_range", [0, 0])` as a (min, max) pair. -/
def valid_temperature_range (b : SmartBulb) : Except PyError (Int × Int) :=
  if ¬ is_variable_color_temp b then
    .error (.kasaError "Color temperature not supported")
  else
    .ok (b.info.color_temp_range.getD (0, 0))

/-- A request sent through `self.protocol.query`: the single method name and
the ordered fields of its parameter dict (all parameter values in the modelled
requests are integers). -/
structure Request where
  method : String
  params : List (String × Int)
deriving DecidableEq

/-- Dict lookup in the parameter dict of a request. -/
def paramLookup (ps : List (String × Int)) (k : String) : Option Int :=
  (ps.find? (fun p => p.1 == k)).map (fun p => p.2)

/-- Model of `SmartBulb._raise_for_invalid_brightness`: `ValueError` unless
`1 <= value <= 100` (the argument is an integer in this embedding, so the
`isinstance` arm of the Python check is vacuous). `none` means no raise. -/
def _raise_for_invalid_brightness (value : Int) : Option PyError :=
  if ¬ (1 ≤ value ∧ value ≤ 100) then
    some (.valueError ("Invalid brightness value: " ++ toString value ++
      " (valid range: 1-100%)"))
  else none

/-- Model of `SmartBulb.set_hsv` (smartbulb.py): capability guard (`is_color`) first,
then hue validation, then saturation validation, then brightness validation of
`value` when it is given; on success the single request
`set_device_info {color_temp: 0, hue, saturation}` is sent, with a
`brightness` field appended exactly when `value` was given. -/
def set_hsv (b : SmartBulb) (hue saturation : Int) (value : Option Int) :
    Except PyError Request :=
  if ¬ is_color b then
    .error (.kasaError "Bulb does not support color.")
  else if ¬ (0 ≤ hue ∧ hue ≤ 360) then
    .error (.valueError ("Invalid hue value: " ++ toString hue ++
      " (valid range: 0-360)"))
  else if ¬ (0 ≤ saturation ∧ saturation ≤ 100) then
    .error (.valueError ("Invalid saturation value: " ++ toString saturation ++
      " (valid range: 0-100%)"))
  else
    match value with
    | some v =>
      match _raise_for_invalid_brightness v with
      | some e => .error e
      | none =>
        .ok ⟨"set_device_info",
          [("color_temp", 0), ("hue", hue), ("saturation", saturation),
           ("brightness", v)]⟩
    | none =>
      .ok ⟨"set_device_info",
        [("color_temp", 0), ("hue", hue), ("saturation", saturation)]⟩

/-- Model of `SmartBulb.set_brightness` (smartbulb.py): capability guard
(`is_dimmable`) first, then `_raise_for_invalid_brightness`; on success the
single request `set_device_info {brightness}` is sent. -/
def set_brightness (b : SmartBulb) (brightness : Int) :
    Except PyError Request :=
  if ¬ is_dimmable b then
    .error (.kasaError "Bulb is not dimmable.")
  else
    match _raise_for_invalid_brightness brightness with
    | some e => .error e
    | none => .ok ⟨"set_device_info", [("brightness", brightness)]⟩

/-- One raw statistics record: a Python dict mapping string keys (`"year"`,
`"month"`, `"day"`, `"energy_wh"`, `"energy"`) to numbers. -/
abbrev StatRecord := List (String × Rat)

/-- Python dict lookup `entry[k]` as an `Option` (a `KeyError` is `none`). -/
def rgetOpt (r : StatRecord) (k : String) : Option Rat :=
  (r.find? (fun p => p.1 == k)).map (fun p => p.2)

/-- Python `k in entry`. -/
def hasField (r : StatRecord) (k : String) : Bool := (rgetOpt r k).isSome

/-- The dict returned by `_convert_stat_data`: period key (day or month
number) to scaled energy value, insertion-ordered. -/
abbrev StatDict := List (Rat × Rat)

/-- Python dict `__setitem__`: update in place when the key exists, append
otherwise. -/
def dictInsert : StatDict → Rat → Rat → StatDict
  | [], k, v => [(k, v)]
  | p :: rest, k, v =>
    if p.1 = k then (p.1, v) :: rest else p :: dictInsert rest k v

/-- Python `d.get(k)` on the returned dict. -/
def dlookup : StatDict → Rat → Option Rat
  | [], _ => none
  | p :: rest, k => if p.1 = k then some p.2 else dlookup rest k

/-- The `value_key` chosen by `_convert_stat_data` from the first record:
`"energy_wh"` if the first record contains it, else `"energy"`. -/
def valueKeyOf (first : StatRecord) : String :=
  if hasField first "energy_wh" then "energy_wh" else "energy"

/-- The `scale` chosen by `_convert_stat_data`: for a watt-hour series,
`1/1000` when kWh is requested; for a kilowatt-hour series, `1000` when kWh is
not requested; otherwise `1`. -/
def scaleOf (first : StatRecord) (kwh : Bool) : Rat :=
  if hasField first "energy_wh" then (if kwh then 1/1000 else 1)
  else (if kwh then 1 else 1000)

/-- The dict comprehension
`{entry[entry_key]: entry[value_key] * scale for entry in data}`;
`none` models a `KeyError` on a missing field. -/
def convertAll (l : List StatRecord) (ek vk : String) (scale : Rat)
    (acc : StatDict) : Option StatDict :=
  match l with
  | [] => some acc
  | entry :: rest => do
    let k ← rgetOpt entry ek
    let v ← rgetOpt entry vk
    convertAll rest ek vk scale (dictInsert acc k (v * scale))

/-- The tail-first single-key scan
`for entry in reversed(data): if entry[entry_key] == key: return {...}`,
given the already-reversed list; falls through to `return {}`. -/
def convertTail (l : List StatRecord) (ek vk : String) (scale : Rat)
    (key : Rat) : Option StatDict :=
  match l with
  | [] => some []
  | entry :: rest => do
    let kv ← rgetOpt entry ek
    if kv = key then do
      let v ← rgetOpt entry vk
      pure [(kv, v * scale)]
    else convertTail rest ek vk scale key

/-- Model of `Emeter._convert_stat_data` (emeter.py): empty input yields an empty dict;
otherwise the value key and scale are inferred from the first record; with
`key` absent every record is converted, with `key` present the list is scanned
from the end for the first record whose `entry_key` field equals `key`. -/
def _convert_stat_data (data : List StatRecord) (entry_key : String)
    (kwh : Bool) (key : Option Rat) : Option StatDict :=
  match data with
  | [] => some []
  | first :: _ =>
    let value_key := valueKeyOf first
    let scale := scaleOf first kwh
    match key with
    | none => convertAll data entry_key value_key scale []
    | some k => convertTail data.reverse entry_key value_key scale k

/-- Model of `Emeter.emeter_today` (emeter.py) with the daily series and the current
day-of-month as explicit inputs:
`self._convert_stat_data(raw_data, entry_key="day", key=today).get(today)`.
The outer `Option` models a `KeyError` escaping `_convert_stat_data`; the
inner one is the `dict.get` result (`none` = Python `None`). -/
def emeter_today (raw_data : List StatRecord) (today : Rat) :
    Option (Option Rat) :=
  (_convert_stat_data raw_data "day" true (some today)).map
    (fun d => dlookup d today)

/-- Model of `Emeter.emeter_this_month` (emeter.py) with the monthly series and the
current month as explicit inputs. -/
def emeter_this_month (raw_data : List StatRecord) (current_month : Rat) :
    Option (Option Rat) :=
  (_convert_stat_data raw_data "month" true (some current_month)).map
    (fun d => dlookup d current_month)

/-- An effect definition: a Python dict mapping field names (`"custom"`,
`"brightness"`, `"transition"`, ...) to integers. -/
abbrev EffectDict := List (String × Int)

/-- Python dict `__setitem__` on an effect dict. -/
def edictSet : EffectDict → String → Int → EffectDict
  | [], k, v => [(k, v)]
  | p :: rest, k, v =>
    if p.1 == k then (p.1, v) :: rest else p :: edictSet rest k v

/-- The module-level built-in effect catalog `EFFECT_MAPPING_V1`: a dict from
effect name to its (shared, mutable) effect dict object. -/
abbrev EffectCatalog := List (String × EffectDict)

/-- Model of `effect in EFFECT_MAPPING_V1` / `EFFECT_MAPPING_V1[effect]`. -/
def catalogLookup (c : EffectCatalog) (name : String) : Option EffectDict :=
  (c.find? (fun p => p.1 == name)).map (fun p => p.2)

/-- Replace the dict object stored under `name` (the effect of an in-place
mutation of that shared object becoming visible through the catalog). -/
def catalogSet (c : EffectCatalog) (name : String) (d : EffectDict) :
    EffectCatalog :=
  c.map (fun p => if p.1 == name then (p.1, d) else p)

/-- Model of `IotLightStrip.set_effect` (iotlightstrip.py): raises for an unrecognized
name; otherwise binds `effect_dict = EFFECT_MAPPING_V1[effect]` — an alias of
the dict object held by the catalog — assigns `effect_dict["brightness"]` /
`effect_dict["transition"]` in place when the overrides are given, and
forwards `effect_dict` to `set_custom_effect`. Because the assignments mutate
the shared object, the result is (catalog after the call, dict forwarded to
`set_custom_effect`). -/
def set_effect (catalog : EffectCatalog) (effect : String)
    (brightness transition : Option Int) :
    Except PyError (EffectCatalog × EffectDict) :=
  match catalogLookup catalog effect with
  | none =>
    .error (.kasaError ("The effect " ++ effect ++ " is not a built in effect."))
  | some effect_dict =>
    let ed1 := match brightness with
      | some b => edictSet effect_dict "brightness" b
      | none => effect_dict
    let ed2 := match transition with
      | some t => edictSet ed1 "transition" t
      | none => ed1
    .ok (catalogSet catalog effect ed2, ed2)

/-! ## Helper lemmas -/

lemma toNat_charOfNat_of_valid (n : Nat) (h : n.isValidChar) :
    (Char.ofNat n).toNat = n := by
  rw [Char.ofNat, dif_pos h]
  rfl

lemma toLower_toNat (c : Char) :
    (Char.toLower c).toNat = c.toNat ∨
      (97 ≤ (Char.toLower c).toNat ∧ (Char.toLower c).toNat ≤ 122) := by
  unfold Char.toLower
  simp only []
  split
  case isTrue hr =>
    right
    have hv : (Char.toNat c + 32).isValidChar := by
      left
      omega
    rw [toNat_charOfNat_of_valid _ hv]
    omega
  case isFalse hr =>
    left
    rfl

lemma char_toNat_inj {a b : Char} (h : a.toNat = b.toNat) : a = b := by
  apply Char.ext
  exact UInt32.toNat.inj h

lemma toLower_ne_of_small {c d : Char} (hd : d.toNat < 97) (h1 : c ≠ d) :
    Char.toLower c ≠ d := by
  intro hEq
  have hN := congrArg Char.toNat hEq
  rcases toLower_toNat c with h | ⟨h2, h3⟩
  · exact h1 (char_toNat_inj (by rw [← h, hN]))
  · rw [hN] at h2
    omega

/-! ## Feature registry (C1, C7) -/

/-- C7 counterexample input: the feature name from the spec example —
Today, apostrophe, s consumption (built without a literal apostrophe). -/
def todaysConsumption : String :=
  "Today" ++ String.mk [apostrophe] ++ "s consumption"

/-- C7 (counterexample): the claim says apostrophes are *stripped*, so that
the example name would slugify to `todays_consumption`; the code instead
replaces the apostrophe by an underscore, producing `today_s_consumption`. -/
theorem slugified_name_apostrophe_counterexample :
    _slugified_name todaysConsumption = "today_s_consumption" ∧
    _slugified_name todaysConsumption ≠ "todays_consumption" := by
  constructor
  · decide
  · decide

/-- C7 (amended): for every feature name, the slug is the name with every
space and every apostrophe replaced by an underscore and every other character
lowercased (apostrophes are replaced, not stripped). -/
theorem slugified_name_charwise (name : String) :
    _slugified_name name =
      String.mk (name.data.map (fun c =>
        if c = ' ' ∨ c = apostrophe then '_' else Char.toLower c)) := by
  unfold _slugified_name strMap
  rw [List.map_map, List.map_map]
  congr 1
  apply List.map_congr_left
  intro c _
  simp only [Function.comp]
  by_cases hs : c = ' '
  · subst hs
    decide
  by_cases ha : c = apostrophe
  · subst ha
    decide
  have h1 : Char.toLower c ≠ ' ' := toLower_ne_of_small (by decide) hs
  have h2 : Char.toLower c ≠ apostrophe := toLower_ne_of_small (by decide) ha
  simp [hs, ha, h1, h2]

/-- C1: `_add_feature` raises the duplicate-name `KasaException` and leaves
the registry unchanged when the slugified name is already a key, and
otherwise inserts the feature under its slugified name without raising. -/
theorem add_feature_contract (reg : FeatureRegistry) (f : Feature) :
    ((regLookup reg (_slugified_name f.name)).isSome = true →
      _add_feature reg f =
        (some (.kasaError
          ("Duplicate name detected " ++ _slugified_name f.name)), reg)) ∧
    ((regLookup reg (_slugified_name f.name)).isSome = false →
      _add_feature reg f = (none, reg ++ [(_slugified_name f.name, f)])) := by
  unfold _add_feature
  constructor
  · intro h
    simp [h]
  · intro h
    simp [h]

/-- C1 witness: registering `total_energy` against a registry that already
holds the slug `total_energy` (from `Total Energy`) fails and leaves the
registry unchanged. -/
theorem add_feature_contract_witness :
    _add_feature [("total_energy", ⟨"Total Energy"⟩)] ⟨"total_energy"⟩ =
      (some (PyError.kasaError "Duplicate name detected total_energy"),
       [("total_energy", ⟨"Total Energy"⟩)]) := by
  have h :=
    (add_feature_contract [("total_energy", ⟨"Total Energy"⟩)]
      ⟨"total_energy"⟩).1 (by decide)
  rw [show _slugified_name "total_energy" = "total_energy" from by decide] at h
  exact h

/-! ## Capability-gated bulb facade (C2, C3, C6, C8) -/

/-- C2: `is_variable_color_temp` holds iff the info blob carries a
`color_temp_range` with distinct bounds; `valid_temperature_range` raises the
capability `KasaException` exactly when that predicate fails; in particular a
device reporting `color_temp_range=[9000, 9000]` gets the capability error
even though the key is present. -/
theorem variable_color_temp_contract (b : SmartBulb) :
    (is_variable_color_temp b = true ↔
      ∃ lo hi, b.info.color_temp_range = some (lo, hi) ∧ lo ≠ hi) ∧
    ((∃ m, valid_temperature_range b = .error (.kasaError m)) ↔
      is_variable_color_temp b = false) ∧
    (b.info.color_temp_range = some (9000, 9000) →
      valid_temperature_range b =
        .error (.kasaError "Color temperature not supported")) := by
  refine ⟨?_, ?_, ?_⟩
  · cases hct : b.info.color_temp_range with
    | none => simp [is_variable_color_temp, hct]
    | some ct =>
      cases ct with
      | mk lo hi =>
        simp only [is_variable_color_temp, hct, bne_iff_ne]
        constructor
        · intro h
          exact ⟨lo, hi, rfl, h⟩
        · rintro ⟨l, h2, he, hne⟩
          cases he
          exact hne
  · unfold valid_temperature_range
    cases hv : is_variable_color_temp b with
    | true => simp
    | false => simp
  · intro hct
    have hfalse : is_variable_color_temp b = false := by
      simp [is_variable_color_temp, hct]
    unfold valid_temperature_range
    simp [hfalse]

/-- C2 witness: on the concrete bulb reporting `color_temp_range=[9000,9000]`
the capability error is raised, the variability predicate is false, and yet
the range key is present. -/
theorem variable_color_temp_contract_witness :
    valid_temperature_range
        ⟨⟨none, none, none, none, some (9000, 9000)⟩, []⟩ =
      .error (.kasaError "Color temperature not supported") := by
  exact (variable_color_temp_contract
    ⟨⟨none, none, none, none, some (9000, 9000)⟩, []⟩).2.2 rfl

/-- C3: on a device whose info blob lacks the `hue` key, `set_hsv` raises the
capability `KasaException` (not a `ValueError`) for every hue, saturation and
value argument — the guard is checked before any range validation, and the
`.error` result means no request is sent. -/
theorem set_hsv_capability_guard_first (b : SmartBulb) (hue saturation : Int)
    (value : Option Int) (hh : b.info.hue = none) :
    set_hsv b hue saturation value =
      .error (.kasaError "Bulb does not support color.") := by
  have hc : is_color b = false := by
    simp [is_color, hh]
  unfold set_hsv
  simp [hc]

/-- C3 witness: with out-of-range hue 999, saturation -5 and brightness 0,
the colorless bulb still gets the capability error (not a validation one). -/
theorem set_hsv_capability_guard_first_witness :
    set_hsv ⟨⟨none, none, none, none, none⟩, []⟩ 999 (-5) (some 0) =
      .error (.kasaError "Bulb does not support color.") :=
  set_hsv_capability_guard_first ⟨⟨none, none, none, none, none⟩, []⟩
    999 (-5) (some 0) rfl

/-- C6: on a dimmable device, `set_brightness` with an argument outside
`1..100` raises the validation `ValueError` with no request sent (the
argument is an integer by type in this embedding, so the non-integer arm of
the Python check is vacuous). -/
theorem set_brightness_validation (b : SmartBulb) (v : Int)
    (hd : is_dimmable b = true) (hv : ¬ (1 ≤ v ∧ v ≤ 100)) :
    set_brightness b v =
      .error (.valueError ("Invalid brightness value: " ++ toString v ++
        " (valid range: 1-100%)")) := by
  unfold set_brightness _raise_for_invalid_brightness
  simp [hd, hv]

/-- C6 witness: `set_brightness 0` and `set_brightness 101` on a dimmable
device both fail with the validation error. -/
theorem set_brightness_validation_witness :
    set_brightness ⟨⟨none, none, none, none, none⟩, ["Brightness"]⟩ 0 =
      .error (.valueError "Invalid brightness value: 0 (valid range: 1-100%)")
    ∧
    set_brightness ⟨⟨none, none, none, none, none⟩, ["Brightness"]⟩ 101 =
      .error
        (.valueError "Invalid brightness value: 101 (valid range: 1-100%)")
    := by
  constructor
  · have h := set_brightness_validation
      ⟨⟨none, none, none, none, none⟩, ["Brightness"]⟩ 0 (by decide)
      (by decide)
    simpa using h
  · have h := set_brightness_validation
      ⟨⟨none, none, none, none, none⟩, ["Brightness"]⟩ 101 (by decide)
      (by decide)
    simpa using h

/-- C8: every valid `set_hsv` call on a color-capable device issues the
single `set_device_info` request whose dict sets `color_temp` to 0 together
with the given hue and saturation, and carries a `brightness` field exactly
when a value argument was supplied. -/
theorem set_hsv_request_shape (b : SmartBulb) (hue saturation : Int)
    (value : Option Int) (hc : is_color b = true)
    (hh : 0 ≤ hue ∧ hue ≤ 360) (hs : 0 ≤ saturation ∧ saturation ≤ 100)
    (hv : ∀ x, value = some x → 1 ≤ x ∧ x ≤ 100) :
    ∃ req, set_hsv b hue saturation value = .ok req ∧
      req.method = "set_device_info" ∧
      paramLookup req.params "color_temp" = some 0 ∧
      paramLookup req.params "hue" = some hue ∧
      paramLookup req.params "saturation" = some saturation ∧
      paramLookup req.params "brightness" = value := by
  unfold set_hsv
  cases value with
  | none =>
    refine ⟨⟨"set_device_info",
      [("color_temp", 0), ("hue", hue), ("saturation", saturation)]⟩,
      ?_, rfl, ?_, ?_, ?_, ?_⟩
    · simp [hc, hh, hs]
    all_goals simp [paramLookup]
  | some x =>
    have hx := hv x rfl
    have hb : _raise_for_invalid_brightness x = none := by
      unfold _raise_for_invalid_brightness
      simp [hx]
    refine ⟨⟨"set_device_info",
      [("color_temp", 0), ("hue", hue), ("saturation", saturation),
       ("brightness", x)]⟩, ?_, rfl, ?_, ?_, ?_, ?_⟩
    · simp [hc, hh, hs, hb]
    all_goals simp [paramLookup]

/-- C8 witness: `set_hsv 10 20 (some 30)` on a color bulb issues the request
with `color_temp = 0`, the given hue and saturation, and a brightness field. -/
theorem set_hsv_request_shape_witness :
    ∃ req,
      set_hsv ⟨⟨some 0, none, none, none, none⟩, []⟩ 10 20 (some 30) =
        .ok req ∧
      req.method = "set_device_info" ∧
      paramLookup req.params "color_temp" = some 0 ∧
      paramLookup req.params "hue" = some 10 ∧
      paramLookup req.params "saturation" = some 20 ∧
      paramLookup req.params "brightness" = some 30 := by
  exact set_hsv_request_shape ⟨⟨some 0, none, none, none, none⟩, []⟩ 10 20
    (some 30) rfl (by decide) (by decide)
    (fun x hx => by cases hx; exact ⟨by decide, by decide⟩)

/-! ## Light strip effects (C9) -/

/-- A built-in effect catalog carrying one canonical effect, `Aurora`, with
default brightness 100. -/
def auroraCatalog : EffectCatalog := [("Aurora", [("custom", 0), ("brightness", 100)])]

/-- The same catalog after its `Aurora` entry has been overridden in place to
brightness 50. -/
def auroraCatalogAfter : EffectCatalog :=
  [("Aurora", [("custom", 0), ("brightness", 50)])]

/-- C9 (code bug): `set_effect` with a brightness override mutates the shared
`EFFECT_MAPPING_V1` entry in place, so the catalog after the call differs from
the canonical one, and a later `set_effect` with the same name and no
overrides forwards the overridden definition (brightness 50) to
`set_custom_effect` instead of the canonical one (brightness 100). -/
theorem set_effect_mutates_catalog :
    set_effect auroraCatalog "Aurora" (some 50) none =
      .ok (auroraCatalogAfter, [("custom", 0), ("brightness", 50)]) ∧
    auroraCatalogAfter ≠ auroraCatalog ∧
    set_effect auroraCatalogAfter "Aurora" none none =
      .ok (auroraCatalogAfter, [("custom", 0), ("brightness", 50)]) ∧
    catalogLookup auroraCatalog "Aurora" ≠
      catalogLookup auroraCatalogAfter "Aurora" := by
  refine ⟨rfl, ?_, rfl, ?_⟩ <;> decide

/-! ## Emeter statistics conversion (C4, C5, C10) -/

lemma dlookup_dictInsert (d : StatDict) (k v k' : Rat) :
    dlookup (dictInsert d k v) k' = if k' = k then some v else dlookup d k' := by
  induction d with
  | nil =>
    rcases eq_or_ne k' k with h | h
    · subst h
      simp [dictInsert, dlookup]
    · simp [dictInsert, dlookup, h, Ne.symm h]
  | cons p rest ih =>
    simp only [dictInsert]
    rcases eq_or_ne p.1 k with hpk | hpk
    · rw [if_pos hpk]
      rcases eq_or_ne k' k with h | h
      · subst h
        simp [dlookup, hpk]
      · have hk : p.1 ≠ k' := by
          rw [hpk]
          exact Ne.symm h
        simp [dlookup, hk, h]
    · rw [if_neg hpk]
      rcases eq_or_ne p.1 k' with hpk' | hpk'
      · have hk : k' ≠ k := fun hh => hpk (hpk'.trans hh)
        simp [dlookup, hpk', hk]
      · simp [dlookup, hpk', ih]

lemma convertTail_spec (l : List StatRecord) (ek vk : String)
    (scale key : Rat)
    (h : ∀ r ∈ l, (rgetOpt r ek).isSome ∧ (rgetOpt r vk).isSome) :
    convertTail l ek vk scale key =
      match l.find? (fun r => rgetOpt r ek == some key) with
      | some r => some [(key, ((rgetOpt r vk).getD 0) * scale)]
      | none => some [] := by
  induction l with
  | nil => rfl
  | cons e rest ih =>
    obtain ⟨h1, h2⟩ := h e (List.mem_cons_self e rest)
    obtain ⟨ke, hke⟩ := Option.isSome_iff_exists.mp h1
    obtain ⟨ve, hve⟩ := Option.isSome_iff_exists.mp h2
    unfold convertTail
    rw [hke]
    simp only [Option.bind_eq_bind, Option.some_bind]
    rcases eq_or_ne ke key with hk | hk
    · subst hk
      have hfind : List.find? (fun r => rgetOpt r ek == some ke) (e :: rest)
          = some e :=
        List.find?_cons_of_pos _ (by simp [hke])
      rw [hfind, if_pos rfl, hve]
      simp [hve]
    · have hfind : List.find? (fun r => rgetOpt r ek == some key) (e :: rest)
          = List.find? (fun r => rgetOpt r ek == some key) rest :=
        List.find?_cons_of_neg _ (by simp [hke, hk])
      rw [hfind, if_neg hk]
      exact ih (fun r hr => h r (List.mem_cons_of_mem e hr))

lemma convertAll_spec (l : List StatRecord) (ek vk : String) (scale : Rat) :
    ∀ acc : StatDict,
      (∀ r ∈ l, (rgetOpt r ek).isSome ∧ (rgetOpt r vk).isSome) →
      ∃ d, convertAll l ek vk scale acc = some d ∧
        ∀ k, dlookup d k =
          match l.reverse.find? (fun r => rgetOpt r ek == some k) with
          | some r => (rgetOpt r vk).map (fun v => v * scale)
          | none => dlookup acc k := by
  induction l with
  | nil =>
    intro acc _
    exact ⟨acc, rfl, fun k => by simp⟩
  | cons e rest ih =>
    intro acc hh
    obtain ⟨h1, h2⟩ := hh e (List.mem_cons_self e rest)
    obtain ⟨ke, hke⟩ := Option.isSome_iff_exists.mp h1
    obtain ⟨ve, hve⟩ := Option.isSome_iff_exists.mp h2
    unfold convertAll
    rw [hke, hve]
    simp only [Option.bind_eq_bind, Option.some_bind]
    obtain ⟨d, hd, hlook⟩ := ih (dictInsert acc ke (ve * scale))
      (fun r hr => hh r (List.mem_cons_of_mem e hr))
    refine ⟨d, hd, fun k => ?_⟩
    rw [hlook k]
    have hrev : (e :: rest).reverse = rest.reverse ++ [e] := by simp
    rw [hrev, List.find?_append]
    cases hfr : List.find? (fun r => rgetOpt r ek == some k) rest.reverse with
    | some r => simp
    | none =>
      simp only [Option.none_or]
      rcases eq_or_ne ke k with hk | hk
      · subst hk
        have hfind : List.find? (fun r => rgetOpt r ek == some ke) [e]
            = some e :=
          List.find?_cons_of_pos _ (by simp [hke])
        rw [hfind, dlookup_dictInsert, if_pos rfl]
        simp [hve]
      · have hfind : List.find? (fun r => rgetOpt r ek == some k) [e]
            = List.find? (fun r => rgetOpt r ek == some k) [] :=
          List.find?_cons_of_neg _ (by simp [hke, hk])
        rw [hfind]
        simp only [List.find?_nil]
        rw [dlookup_dictInsert, if_neg (fun hh2 => hk hh2.symm)]

/-- C4: in single-key mode on a non-empty series, `_convert_stat_data`
returns the one-entry dict mapping the key to the scaled energy value of the
last record whose `entry_key` field equals the key (first match of the
tail-first scan), and the empty dict when no record matches. -/
theorem convert_stat_data_single_key (data : List StatRecord)
    (entry_key : String) (kwh : Bool) (key : Rat) (first : StatRecord)
    (rest : List StatRecord) (hne : data = first :: rest)
    (h : ∀ r ∈ data, (rgetOpt r entry_key).isSome ∧
      (rgetOpt r (valueKeyOf first)).isSome) :
    _convert_stat_data data entry_key kwh (some key) =
      match data.reverse.find?
          (fun r => rgetOpt r entry_key == some key) with
      | some r =>
        some [(key,
          ((rgetOpt r (valueKeyOf first)).getD 0) * scaleOf first kwh)]
      | none => some [] := by
  subst hne
  show convertTail ((first :: rest).reverse) entry_key (valueKeyOf first)
      (scaleOf first kwh) key = _
  exact convertTail_spec _ _ _ _ _
    (fun r hr => h r (List.mem_reverse.mp hr))

/-- C4 witness: the spec example — a kWh-valued series queried with
`kwh=False` and `key=2` yields the one-entry dict mapping 2 to 5000 (tail
record wins, kWh-to-Wh scaling by 1000). -/
theorem convert_stat_data_single_key_witness :
    _convert_stat_data
        [[("month", 1), ("energy", 5)], [("month", 2), ("energy", 5)]]
        "month" false (some 2) = some [(2, 5000)] := by
  have h := convert_stat_data_single_key
    [[("month", 1), ("energy", 5)], [("month", 2), ("energy", 5)]]
    "month" false 2 [("month", 1), ("energy", 5)]
    [[("month", 2), ("energy", 5)]] rfl (by decide)
  rw [h]
  norm_num +decide [rgetOpt, valueKeyOf, scaleOf, hasField]

/-- C5: in whole-series mode, `_convert_stat_data` yields the empty dict on
an empty series, and otherwise infers the unit from the first record alone
(`energy_wh` present ⇒ watt-hour series scaled by 1/1000 iff kWh requested;
otherwise kilowatt-hour series scaled by 1000 iff kWh not requested) and maps
the `entry_key` value of every record to its uniformly scaled energy value, the
last record with a given key winning (later overwrites earlier). -/
theorem convert_stat_data_whole_series (data : List StatRecord)
    (entry_key : String) (kwh : Bool) (first : StatRecord)
    (rest : List StatRecord) :
    _convert_stat_data [] entry_key kwh none = some [] ∧
    (data = first :: rest →
      (∀ r ∈ data, (rgetOpt r entry_key).isSome ∧
        (rgetOpt r (if hasField first "energy_wh" then "energy_wh"
          else "energy")).isSome) →
      ∃ d, _convert_stat_data data entry_key kwh none = some d ∧
        ∀ k, dlookup d k =
          (data.reverse.find?
            (fun r => rgetOpt r entry_key == some k)).bind
            (fun r =>
              (rgetOpt r (if hasField first "energy_wh" then "energy_wh"
                else "energy")).map
                (fun v => v * (if hasField first "energy_wh"
                  then (if kwh then (1 : Rat)/1000 else 1)
                  else (if kwh then (1 : Rat) else 1000))))) := by
  constructor
  · rfl
  intro hne hh
  subst hne
  have hvk : valueKeyOf first =
      (if hasField first "energy_wh" then "energy_wh" else "energy") := rfl
  have hsc : scaleOf first kwh =
      (if hasField first "energy_wh"
        then (if kwh then (1 : Rat)/1000 else 1)
        else (if kwh then (1 : Rat) else 1000)) := rfl
  simp only [← hvk, ← hsc] at hh ⊢
  obtain ⟨d, hd, hlook⟩ :=
    convertAll_spec (first :: rest) entry_key (valueKeyOf first)
      (scaleOf first kwh) [] hh
  refine ⟨d, hd, fun k => ?_⟩
  rw [hlook k]
  cases List.find? (fun r => rgetOpt r entry_key == some k)
      (first :: rest).reverse with
  | some r => rfl
  | none => rfl

/-- C5 witness: the spec example — a watt-hour daily series with kWh
requested maps day 1 to 1.0 and day 2 to 2.0 (scaling by 1/1000), and the
empty series yields the empty dict. -/
theorem convert_stat_data_whole_series_witness :
    _convert_stat_data [] "day" true none = some [] ∧
    ∃ d, _convert_stat_data
        [[("day", 1), ("energy_wh", 1000)], [("day", 2), ("energy_wh", 2000)]]
        "day" true none = some d ∧
      dlookup d 1 = some 1 ∧ dlookup d 2 = some 2 := by
  have h := convert_stat_data_whole_series
    [[("day", 1), ("energy_wh", 1000)], [("day", 2), ("energy_wh", 2000)]]
    "day" true [("day", 1), ("energy_wh", 1000)]
    [[("day", 2), ("energy_wh", 2000)]]
  refine ⟨h.1, ?_⟩
  obtain ⟨d, hd, hlook⟩ := h.2 rfl (by decide)
  refine ⟨d, hd, ?_, ?_⟩
  · rw [hlook 1]
    norm_num +decide [rgetOpt, hasField]
  · rw [hlook 2]
    norm_num +decide [rgetOpt, hasField]

lemma single_key_get (data : List StatRecord) (ek : String) (key : Rat)
    (first : StatRecord) (rest : List StatRecord)
    (hne : data = first :: rest)
    (h : ∀ r ∈ data, (rgetOpt r ek).isSome ∧
      (rgetOpt r (valueKeyOf first)).isSome) :
    (_convert_stat_data data ek true (some key)).map
        (fun d => dlookup d key) =
      match data.reverse.find? (fun r => rgetOpt r ek == some key) with
      | some r =>
        some (some (((rgetOpt r (valueKeyOf first)).getD 0)
          * scaleOf first true))
      | none => some none := by
  subst hne
  have hc : _convert_stat_data (first :: rest) ek true (some key) =
      convertTail ((first :: rest).reverse) ek (valueKeyOf first)
        (scaleOf first true) key := rfl
  rw [hc, convertTail_spec _ _ _ _ _
    (fun r hr => h r (List.mem_reverse.mp hr))]
  cases List.find? (fun r => rgetOpt r ek == some key)
      (first :: rest).reverse with
  | some r => simp [dlookup]
  | none => rfl

/-- C10: `emeter_today` (`emeter_this_month`) returns `None` rather than
raising when no record of the daily (monthly) series has a `day` (`month`)
field equal to the current day (month) — in particular on an empty series —
and otherwise returns the scaled-to-kWh energy value of the last matching
record. -/
theorem emeter_today_this_month_contract (daily monthly : List StatRecord)
    (today month : Rat) (dfirst mfirst : StatRecord)
    (drest mrest : List StatRecord) :
    (emeter_today [] today = some none ∧
      emeter_this_month [] month = some none) ∧
    (daily = dfirst :: drest →
      (∀ r ∈ daily, (rgetOpt r "day").isSome ∧
        (rgetOpt r (valueKeyOf dfirst)).isSome) →
      ((daily.reverse.find? (fun r => rgetOpt r "day" == some today)
          = none → emeter_today daily today = some none) ∧
       (∀ r, daily.reverse.find? (fun r => rgetOpt r "day" == some today)
          = some r →
          emeter_today daily today =
            some (some (((rgetOpt r (valueKeyOf dfirst)).getD 0)
              * scaleOf dfirst true))))) ∧
    (monthly = mfirst :: mrest →
      (∀ r ∈ monthly, (rgetOpt r "month").isSome ∧
        (rgetOpt r (valueKeyOf mfirst)).isSome) →
      ((monthly.reverse.find? (fun r => rgetOpt r "month" == some month)
          = none → emeter_this_month monthly month = some none) ∧
       (∀ r, monthly.reverse.find?
            (fun r => rgetOpt r "month" == some month) = some r →
          emeter_this_month monthly month =
            some (some (((rgetOpt r (valueKeyOf mfirst)).getD 0)
              * scaleOf mfirst true))))) := by
  refine ⟨⟨rfl, rfl⟩, ?_, ?_⟩
  · intro hne hh
    have hget := single_key_get daily "day" today dfirst drest hne hh
    constructor
    · intro hfind
      show (_convert_stat_data daily "day" true (some today)).map
        (fun d => dlookup d today) = some none
      rw [hget, hfind]
    · intro r hfind
      show (_convert_stat_data daily "day" true (some today)).map
        (fun d => dlookup d today) = _
      rw [hget, hfind]
  · intro hne hh
    have hget := single_key_get monthly "month" month mfirst mrest hne hh
    constructor
    · intro hfind
      show (_convert_stat_data monthly "month" true (some month)).map
        (fun d => dlookup d month) = some none
      rw [hget, hfind]
    · intro r hfind
      show (_convert_stat_data monthly "month" true (some month)).map
        (fun d => dlookup d month) = _
      rw [hget, hfind]

/-- C10 witness: the empty daily and monthly series give `None` without
raising, and a one-record daily series matching the current day 3 gives its
watt-hour value 2000 scaled to 2.0 kWh. -/
theorem emeter_today_this_month_contract_witness :
    emeter_today [] 5 = some none ∧
    emeter_this_month [] 7 = some none ∧
    emeter_today [[("day", 3), ("energy_wh", 2000)]] 3 = some (some 2) := by
  have h := emeter_today_this_month_contract
    [[("day", 3), ("energy_wh", 2000)]] [] 3 7
    [("day", 3), ("energy_wh", 2000)] [] [] []
  refine ⟨(emeter_today_this_month_contract [] [] 5 7 [] [] [] []).1.1,
    h.1.2, ?_⟩
  have h2 := (h.2.1 rfl (by decide)).2 [("day", 3), ("energy_wh", 2000)]
    (by decide)
  rw [h2]
  norm_num +decide [rgetOpt, valueKeyOf, scaleOf, hasField]
